import Mathlib

/-
Verification of the Witch dataset-preparation backend.

Shallow embedding of the services under witch_backend/app/services that the
checked properties talk about: the identifier guard and grain SQL generator
(grain_service.py), the target definition, target SQL generator and
distribution analysis (target_service.py), the validation layer
(validation_service.py), and the assembler contract check
(dataset_assembler_service.py).

Python strings are modelled as Lean String / List Char restricted to ASCII
text; Python re semantics are reproduced where the source relies on them,
including the detail that a dollar anchor also matches just before one
trailing newline.  Database access is modelled by an explicit oracle record:
each function that opens a connection takes the oracle and passes it the
exact SQL text it would send, receiving either a result or an exception
message.
-/

set_option autoImplicit false
set_option maxRecDepth 100000

namespace Witch

/-! Python string primitives -/

/-- Whitespace characters stripped by the Python str.strip method
(ASCII subset, which is all the generated SQL ever contains). -/
def isPySpace (c : Char) : Bool :=
  c == ' ' || c == '\t' || c == '\n' || c == '\r' || c == '\x0b' || c == '\x0c'

/-- Model of the Python expression s.strip(). -/
def pyStrip (l : List Char) : List Char :=
  ((l.dropWhile isPySpace).reverse.dropWhile isPySpace).reverse

/-- Model of the Python expression s.rstrip(";"): removes every trailing
semicolon, not just one. -/
def rstripSemis (l : List Char) : List Char :=
  (l.reverse.dropWhile (fun c => c == ';')).reverse

/-- Composition used throughout the source: sql.strip().rstrip(";"). -/
def pyCleanSql (s : String) : String :=
  String.mk (rstripSemis (pyStrip s.data))

/-- Lower-case an ASCII character, as Python str.lower does on ASCII input. -/
def lowerChar (c : Char) : Char :=
  if 'A' ≤ c && c ≤ 'Z' then Char.ofNat (c.toNat + 32) else c

/-- Upper-case an ASCII character. -/
def upperChar (c : Char) : Char :=
  if 'a' ≤ c && c ≤ 'z' then Char.ofNat (c.toNat - 32) else c

/-- Lower-case an ASCII string. -/
def lowerStr (s : String) : String :=
  String.mk (s.data.map lowerChar)

/-- Case-insensitive character comparison (ASCII). -/
def eqCI (a b : Char) : Bool :=
  upperChar a == upperChar b

/-- Model of Python msg[:200] on a string. -/
def take200 (s : String) : String :=
  String.mk (s.data.take 200)

/-- Exact prefix test on character lists. -/
def prefixEq : List Char → List Char → Bool
  | [], _ => true
  | _ :: _, [] => false
  | a :: as, b :: bs => a == b && prefixEq as bs

/-- Whether pat occurs as a contiguous substring of text, the semantics of
the Python expression pat in text. -/
def subOf (pat : List Char) : List Char → Bool
  | [] => prefixEq pat []
  | c :: rest => prefixEq pat (c :: rest) || subOf pat rest

/-- Truthiness of an optional string in Python: None and the empty string
are falsy. -/
def optTruthy (o : Option String) : Bool :=
  match o with
  | some s => !s.isEmpty
  | none => false

/-- Value of an optional string, defaulting to the empty string. -/
def optVal (o : Option String) : String :=
  o.getD ""

/-! Identifier guard (grain_service.validate_identifier) -/

/-- First-character class of the identifier pattern. -/
def isIdentStart (c : Char) : Bool :=
  ('A' ≤ c && c ≤ 'Z') || ('a' ≤ c && c ≤ 'z') || c == '_'

/-- Word-character class [A-Za-z0-9_], also the class the regex
word-boundary assertion is defined against. -/
def isIdentChar (c : Char) : Bool :=
  isIdentStart c || ('0' ≤ c && c ≤ '9')

/-- Full match of the raw pattern [A-Za-z_][A-Za-z0-9_]* against a string. -/
def matchesIdentCore (l : List Char) : Bool :=
  match l with
  | [] => false
  | c :: cs => isIdentStart c && cs.all isIdentChar

/-- Python re.match with the anchored identifier pattern.  The dollar anchor
in Python also matches just before a single trailing newline, so a string
consisting of a matching identifier followed by one newline is accepted. -/
def pyMatchIdent (l : List Char) : Bool :=
  matchesIdentCore l || (l.getLastD ' ' == '\n' && matchesIdentCore l.dropLast)

/-- Embedding of grain_service.validate_identifier: error means the Python
function raises ValueError with that message, ok means it returns. -/
def validate_identifier (name : String) (context : String) : Except String Unit :=
  if name == "" then
    .error ("Empty " ++ context ++ " name")
  else if name.length > 128 then
    .error (context ++ " name too long (max 128 chars): " ++ name)
  else if !pyMatchIdent name.data then
    .error ("Invalid " ++ context ++ " name: " ++ name)
  else
    .ok ()

/-- Boolean acceptance condition of validate_identifier. -/
def ident_ok (s : String) : Bool :=
  !(s == "") && s.length ≤ 128 && pyMatchIdent s.data

/-- Whether an Except value is a success. -/
def okB {α : Type} (e : Except String α) : Bool :=
  match e with
  | .ok _ => true
  | .error _ => false

/-- Python re.match with the anchored date pattern of four, two and two
digits separated by dashes, including the trailing-newline behaviour of the
dollar anchor. -/
def isAsciiDigit (c : Char) : Bool :=
  '0' ≤ c && c ≤ '9'

/-- Full match of the raw pattern of a YYYY-MM-DD digit shape. -/
def matchesDateCore (l : List Char) : Bool :=
  match l with
  | [y1, y2, y3, y4, d1, m1, m2, d2, a1, a2] =>
    isAsciiDigit y1 && isAsciiDigit y2 && isAsciiDigit y3 && isAsciiDigit y4 &&
    d1 == '-' && isAsciiDigit m1 && isAsciiDigit m2 && d2 == '-' &&
    isAsciiDigit a1 && isAsciiDigit a2
  | _ => false

/-- Python re.match with the anchored date pattern. -/
def pyMatchDate (l : List Char) : Bool :=
  matchesDateCore l || (l.getLastD ' ' == '\n' && matchesDateCore l.dropLast)

/-! Validation types (validation_service.py) -/

/-- Severity levels of ValidationSeverity. -/
inductive Severity where
  | error
  | warning
  | info
deriving DecidableEq, Repr, BEq

/-- A single validation issue, mirroring the ValidationIssue dataclass. -/
structure ValidationIssue where
  severity : Severity
  code : String
  message : String
  location : String
  suggestion : String
deriving DecidableEq, Repr

/-- Result of validation checks, mirroring the ValidationResult dataclass. -/
structure ValidationResult where
  valid : Bool
  issues : List ValidationIssue
deriving DecidableEq, Repr

/-- ValidationResult.add_error: appends an error issue and clears valid. -/
def ValidationResult.add_error (r : ValidationResult)
    (code message location suggestion : String) : ValidationResult :=
  ⟨false, r.issues ++ [⟨.error, code, message, location, suggestion⟩]⟩

/-- ValidationResult.add_warning: appends a warning issue, keeps valid. -/
def ValidationResult.add_warning (r : ValidationResult)
    (code message location suggestion : String) : ValidationResult :=
  ⟨r.valid, r.issues ++ [⟨.warning, code, message, location, suggestion⟩]⟩

/-- ValidationResult.add_info: appends an info issue, keeps valid. -/
def ValidationResult.add_info (r : ValidationResult)
    (code message location suggestion : String) : ValidationResult :=
  ⟨r.valid, r.issues ++ [⟨.info, code, message, location, suggestion⟩]⟩

/-! Forbidden keyword scan -/

/-- The eleven forbidden keywords, upper case as written in the source. -/
def FORBIDDEN_KEYWORDS : List String :=
  ["DROP", "DELETE", "INSERT", "UPDATE", "ALTER", "TRUNCATE",
   "CREATE", "GRANT", "REVOKE", "EXEC", "EXECUTE"]

/-- Case-insensitive prefix test on character lists. -/
def prefixCI : List Char → List Char → Bool
  | [], _ => true
  | _ :: _, [] => false
  | a :: as, b :: bs => eqCI a b && prefixCI as bs

/-- Whole-word, case-insensitive occurrence of keyword k at position i of
text l: k matches the characters starting at i, the previous character (if
any) is not a word character, and the character after the match (if any) is
not a word character.  This is the semantics of a word-bounded alternative
of the compiled forbidden pattern. -/
def keywordAt (l : List Char) (i : Nat) (k : List Char) : Bool :=
  prefixCI k (l.drop i) &&
  (i == 0 || !isIdentChar (l.getD (i - 1) ' ')) &&
  !isIdentChar (l.getD (i + k.length) ' ')

/-- All forbidden keywords that occur somewhere in the text as whole words.
A keyword may be listed several times; as in the source, only the
deduplicated upper-case list and emptiness are ever consumed. -/
def forbiddenMatches (l : List Char) : List String :=
  (List.range l.length).flatMap
    (fun i => FORBIDDEN_KEYWORDS.filter (fun k => keywordAt l i k.data))

/-- Embedding of ValidationService.check_forbidden_keywords.  The
multi-statement test strips surrounding whitespace and every trailing
semicolon and then looks for a remaining semicolon; the keyword test is the
word-bounded case-insensitive scan. -/
def check_forbidden_keywords (sql : String) (location : String) :
    List ValidationIssue :=
  let sqlStripped := rstripSemis (pyStrip sql.data)
  let multi : List ValidationIssue :=
    if sqlStripped.contains ';' then
      [⟨.error, "MULTI_STATEMENT",
        "SQL contains multiple statements (embedded semicolons)", location,
        "Remove embedded semicolons; only trailing semicolon allowed"⟩]
    else []
  let ms := forbiddenMatches sql.data
  let forb : List ValidationIssue :=
    if ms.isEmpty then []
    else
      [⟨.error, "FORBIDDEN_KEYWORD",
        "SQL contains forbidden keywords: " ++
          String.intercalate ", " ms.eraseDups, location,
        "Remove data modification statements; only SELECT is allowed"⟩]
  multi ++ forb

/-! Database oracle -/

/-- Abstract model of the SQLAlchemy engine: each operation receives the
exact SQL text the service would send and returns a result or an exception
message.  explain models conn.execute on an EXPLAIN statement,
limitZeroColumns models executing a LIMIT 0 wrapper and reading the result
column names, fetchOne models executing a query and fetching the first row
(none when the result set is empty). -/
structure Engine where
  explain : String → Except String Unit
  limitZeroColumns : String → Except String (List String)
  fetchOne : String → Except String (Option (List String))

/-! Validation service operations -/

/-- Embedding of ValidationService.validate_sql_syntax (renamed to avoid a
reserved suffix).  Runs the keyword check first, and only consults the
engine with an EXPLAIN statement when no keyword error was found. -/
def validate_sql_explain (engine : Engine) (sql : String) (location : String) :
    ValidationResult :=
  let kw := check_forbidden_keywords sql location
  let r1 : ValidationResult := ⟨!kw.any (fun i => i.severity == .error), kw⟩
  if !r1.valid then r1
  else
    match engine.explain ("EXPLAIN " ++ pyCleanSql sql) with
    | .ok _ => r1
    | .error msg =>
      if subOf "syntax error".data (lowerStr msg).data then
        r1.add_error "SYNTAX_ERROR" ("SQL syntax error: " ++ take200 msg)
          location "Check SQL syntax and column/table names"
      else
        r1.add_error "SQL_ERROR" ("SQL validation failed: " ++ take200 msg)
          location "Verify table/column names exist and are accessible"

/-- The LIMIT 0 wrapper built by validate_output_contract. -/
def contractWrap (sql : String) : String :=
  "SELECT * FROM (" ++ pyCleanSql sql ++ ") AS _contract_check LIMIT 0"

/-- Second and later occurrences of names in a column list, in order, as
collected by the duplicate-column loop of validate_output_contract. -/
def dupColumns : List String → List String → List String
  | _, [] => []
  | seen, c :: cs =>
    if seen.contains c then c :: dupColumns seen cs
    else dupColumns (c :: seen) cs

/-- Embedding of ValidationService.validate_output_contract.  Required
columns are compared against the output columns with exact, case-sensitive
equality; duplicated output names yield a warning. -/
def validate_output_contract (engine : Engine) (sql : String)
    (required_columns : List String) (location : String) : ValidationResult :=
  match engine.limitZeroColumns (contractWrap sql) with
  | .error e =>
    (⟨true, []⟩ : ValidationResult).add_error "CONTRACT_CHECK_FAILED"
      ("Could not verify output contract: " ++ take200 e) location
      "Ensure SQL is valid and can be executed"
  | .ok actual =>
    let missing := required_columns.filter (fun c => !actual.contains c)
    let r1 : ValidationResult :=
      if missing.isEmpty then ⟨true, []⟩
      else
        (⟨true, []⟩ : ValidationResult).add_error "MISSING_COLUMNS"
          ("Required columns missing from output: " ++
            String.intercalate ", " missing) location
          ("Add missing columns to SELECT: " ++ String.intercalate ", " missing)
    if actual.length != actual.eraseDups.length then
      r1.add_warning "DUPLICATE_COLUMNS"
        ("Output contains duplicate columns: " ++
          String.intercalate ", " (dupColumns [] actual)) location
        "Use aliases to make column names unique"
    else r1

/-- The LIMIT 0 wrapper built by validate_feature_columns. -/
def featureWrap (sql : String) : String :=
  "SELECT * FROM (" ++ pyCleanSql sql ++ ") AS _feature_check LIMIT 0"

/-- Embedding of ValidationService.validate_feature_columns. -/
def validate_feature_columns (engine : Engine) (sql : String)
    (declared_columns : List String) (location : String) : ValidationResult :=
  match engine.limitZeroColumns (featureWrap sql) with
  | .error e =>
    (⟨true, []⟩ : ValidationResult).add_error "COLUMN_CHECK_FAILED"
      ("Could not verify feature columns: " ++ take200 e) location ""
  | .ok actual =>
    let missing := declared_columns.filter (fun c => !actual.contains c)
    let r1 : ValidationResult :=
      if missing.isEmpty then ⟨true, []⟩
      else
        (⟨true, []⟩ : ValidationResult).add_error "DECLARED_COLUMNS_MISSING"
          ("Declared feature columns not in SQL output: " ++
            String.intercalate ", " missing) location
          "Ensure declared columns match SELECT clause"
    r1.add_info "ACTUAL_COLUMNS"
      ("SQL outputs: " ++ String.intercalate ", " actual) location ""

/-- First column of a list rejected by the identifier guard, if any,
mirroring the validation loop of validate_mean_imputation_types which
returns on the first invalid name. -/
def firstBadIdent : List String → Option String
  | [] => none
  | c :: cs =>
    match validate_identifier c "mean_column" with
    | .error _ => some c
    | .ok _ => firstBadIdent cs

/-- Runtime types accepted as numeric by the mean-imputation check. -/
def numericTypes : List String :=
  ["integer", "bigint", "smallint", "numeric", "decimal", "real",
   "double precision", "float", "int4", "int8", "float4", "float8"]

/-- The pg_typeof projection list built by validate_mean_imputation_types. -/
def typeChecksFor (cols : List String) : String :=
  String.intercalate ", "
    ((cols.enum).map (fun p =>
      "pg_typeof(\"" ++ p.2 ++ "\")::text AS col" ++ toString p.1 ++ "_type"))

/-- The type probe query built by validate_mean_imputation_types. -/
def typeCheckWrap (sql : String) (cols : List String) : String :=
  "SELECT " ++ typeChecksFor cols ++ " FROM (" ++ pyCleanSql sql ++
    ") AS _type_check LIMIT 1"

/-- Warning loop over the fetched type row: one warning per column whose
lower-cased runtime type is not numeric. -/
def meanTypeLoop (row : List String) (location : String) :
    List (Nat × String) → ValidationResult → ValidationResult
  | [], r => r
  | (i, col) :: rest, r =>
    let colType := row.getD i "unknown"
    let r1 :=
      if !(numericTypes.contains (lowerStr colType)) then
        r.add_warning "MEAN_NON_NUMERIC"
          ("Column " ++ col ++ " has type " ++ colType ++
            " - mean imputation may not work") location
          "Mean imputation is only meaningful for numeric types"
      else r
    meanTypeLoop row location rest r1

/-- Embedding of ValidationService.validate_mean_imputation_types.  Every
issue this operation can produce is a warning. -/
def validate_mean_imputation_types (engine : Engine) (sql : String)
    (mean_columns : List String) (location : String) : ValidationResult :=
  if mean_columns.isEmpty then ⟨true, []⟩
  else
    match firstBadIdent mean_columns with
    | some col =>
      (⟨true, []⟩ : ValidationResult).add_warning "INVALID_MEAN_COLUMN"
        ("Invalid column name for mean imputation: " ++ col) location ""
    | none =>
      match engine.fetchOne (typeCheckWrap sql mean_columns) with
      | .error e =>
        (⟨true, []⟩ : ValidationResult).add_warning "TYPE_CHECK_FAILED"
          ("Could not verify column types: " ++ String.mk (e.data.take 100))
          location ""
      | .ok none => ⟨true, []⟩
      | .ok (some row) =>
        meanTypeLoop row location mean_columns.enum ⟨true, []⟩

/-- A feature SQL entry passed to validate_dataset_sql: the sql text and
the declared feature column names. -/
structure FeatureSqlDict where
  sql : String
  feature_columns : List String
deriving Repr

/-- Per-feature loop of validate_dataset_sql: keyword check, then declared
column check unless the feature shows keyword errors or declares no
columns.  The index feeds the location tag. -/
def featureLoop (engine : Engine) :
    Nat → List FeatureSqlDict → ValidationResult → ValidationResult
  | _, [], acc => acc
  | i, f :: rest, acc =>
    let loc := "feature_" ++ toString i
    let kw := check_forbidden_keywords f.sql loc
    let hasKw := kw.any (fun x => x.severity == .error)
    let acc1 : ValidationResult := ⟨acc.valid && !hasKw, acc.issues ++ kw⟩
    let acc2 : ValidationResult :=
      if !f.feature_columns.isEmpty && !hasKw then
        let colResult := validate_feature_columns engine f.sql f.feature_columns loc
        ⟨acc1.valid && colResult.valid, acc1.issues ++ colResult.issues⟩
      else acc1
    featureLoop engine (i + 1) rest acc2

/-- Embedding of ValidationService.validate_dataset_sql: syntax and keyword
check of the main SQL, output contract on entity_id and observation_date
unless the main SQL had keyword errors, per-feature checks, and the
mean-imputation type check. -/
def validate_dataset_sql (engine : Engine) (dataset_sql : String)
    (feature_sqls : Option (List FeatureSqlDict))
    (post_sql_impute : Option (List (String × String))) : ValidationResult :=
  let main := validate_sql_explain engine dataset_sql "dataset_sql"
  let r1 : ValidationResult := ⟨main.valid, main.issues⟩
  let mainHasKw := main.issues.any (fun i =>
    i.severity == .error &&
      (i.code == "FORBIDDEN_KEYWORD" || i.code == "MULTI_STATEMENT"))
  let r2 : ValidationResult :=
    if !mainHasKw then
      let c := validate_output_contract engine dataset_sql
        ["entity_id", "observation_date"] "dataset_sql"
      ⟨r1.valid && c.valid, r1.issues ++ c.issues⟩
    else r1
  let r3 : ValidationResult :=
    match feature_sqls with
    | none => r2
    | some fs => featureLoop engine 0 fs r2
  match post_sql_impute with
  | none => r3
  | some ps =>
    let meanCols := (ps.filter (fun p => p.2 == "mean")).map (fun p => p.1)
    if !meanCols.isEmpty && !mainHasKw then
      let t := validate_mean_imputation_types engine dataset_sql meanCols
        "post_sql_impute"
      ⟨r3.valid, r3.issues ++ t.issues⟩
    else r3

/-! Dataset assembler contract check (dataset_assembler_service.py) -/

/-- Result dictionary of DatasetAssembler.enforce_join_contract. -/
structure ContractResult where
  sql_name : String
  valid : Bool
  errors : List String
  actual_columns : List String
deriving DecidableEq, Repr

/-- The LIMIT 0 wrapper built by enforce_join_contract, whitespace as in
the source triple-quoted string. -/
def enforceWrap (sql : String) : String :=
  "\n                SELECT * FROM (\n                    " ++ pyCleanSql sql ++
  "\n                ) _contract_check\n                LIMIT 0\n            "

/-- Embedding of DatasetAssembler.enforce_join_contract.  Expected columns
are compared case-insensitively against the lower-cased set of output
columns. -/
def enforce_join_contract (engine : Engine) (sql : String)
    (expected_columns : List String) (sql_name : String) : ContractResult :=
  match engine.limitZeroColumns (enforceWrap sql) with
  | .error e =>
    ⟨sql_name, false,
      ["SQL execution error in " ++ sql_name ++ ": " ++ take200 e], []⟩
  | .ok actual =>
    let actualLower := actual.map lowerStr
    let errs := (expected_columns.filter
        (fun c => !actualLower.contains (lowerStr c))).map
      (fun c => "Missing required column " ++ c ++ " in " ++ sql_name)
    ⟨sql_name, errs.isEmpty, errs, actual⟩

/-! Grain definition and SQL generation (grain_service.py) -/

/-- The GrainDefinition value object after construction; dedup_order_by
already carries the constructor default of the observation date column. -/
structure GrainDefinition where
  entity_type : String
  entity_table : String
  entity_id_column : String
  observation_date_column : String
  observation_date_type : String
  observation_date_value : Option String
  deduplication_rule : String
  dedup_order_by : String
  dedup_tiebreaker : Option String
  schema : String
  snapshot_strategy : String
  start_date : Option String
  end_date : Option String
  min_history_days : Int
  train_end_date : Option String
  valid_end_date : Option String
deriving Repr

/-- Interpolation of an optional Python string into an f-string: None
prints as the text None. -/
def pyOpt (o : Option String) : String :=
  match o with
  | some s => s
  | none => "None"

/-- Double-quoted SQL identifier. -/
def qid (s : String) : String :=
  "\"" ++ s ++ "\""

/-- The split column expression appended when include_split is set and the
boundary dates are present. -/
def splitExprFor (includeSplit : Bool) (ted ved : Option String) : String :=
  if includeSplit && optTruthy ted && optTruthy ved then
    ",\n    CASE \n        WHEN observation_date <= '" ++ optVal ted ++
    "'::DATE THEN 'train'\n        WHEN observation_date <= '" ++ optVal ved ++
    "'::DATE THEN 'valid'\n        ELSE 'test'\n    END AS split"
  else if includeSplit && optTruthy ted then
    ",\n    CASE \n        WHEN observation_date <= '" ++ optVal ted ++
    "'::DATE THEN 'train'\n        ELSE 'test'\n    END AS split"
  else ""

/-- Embedding of GrainService._generate_snapshot_sql. -/
def generate_snapshot_sql (grain : GrainDefinition) (strategy : String)
    (startDate endDate : Option String) (splitExpr : String)
    (includeSplit : Bool) : String :=
  let schema := grain.schema
  let table := grain.entity_table
  let entityCol := grain.entity_id_column
  let obsCol := grain.observation_date_column
  let minHistory := grain.min_history_days
  let interval :=
    if strategy == "monthly" then "1 month"
    else if strategy == "weekly" then "1 week"
    else "1 day"
  let dateExpr :=
    if strategy == "monthly" then
      "DATE_TRUNC('month', d) + INTERVAL '1 month' - INTERVAL '1 day'"
    else if strategy == "weekly" then
      "DATE_TRUNC('week', d) + INTERVAL '6 days'"
    else "d::DATE"
  let sql :=
    "\nWITH \n-- Generate snapshot dates\nsnapshot_dates AS (\n    SELECT DISTINCT " ++
    dateExpr ++ " AS observation_date\n    FROM generate_series(\n        '" ++
    pyOpt startDate ++ "'::DATE,\n        '" ++ pyOpt endDate ++
    "'::DATE,\n        '" ++ interval ++ "'::INTERVAL\n    ) AS d\n    WHERE " ++
    dateExpr ++ " <= '" ++ pyOpt endDate ++
    "'::DATE\n),\n-- Get distinct entities with their first activity date\nentities AS (\n    SELECT \n        " ++
    qid entityCol ++ " AS entity_id,\n        MIN(" ++ qid obsCol ++
    ")::DATE AS first_activity_date\n    FROM " ++ qid schema ++ "." ++ qid table ++
    "\n    WHERE " ++ qid entityCol ++ " IS NOT NULL\n    GROUP BY " ++ qid entityCol ++
    "\n),\n-- Cross join to create all possible entity + date combinations\ngrain_raw AS (\n    SELECT \n        e.entity_id,\n        s.observation_date,\n        e.first_activity_date\n    FROM entities e\n    CROSS JOIN snapshot_dates s\n    -- Only include dates after entity has sufficient history\n    WHERE s.observation_date >= e.first_activity_date + INTERVAL '" ++
    toString minHistory ++
    " days'\n)\nSELECT \n    entity_id,\n    observation_date" ++
    (if includeSplit then splitExpr else "") ++ "\nFROM grain_raw\n"
  String.mk (pyStrip sql.data)

/-- Embedding of GrainService.generate_grain_sql.  The ORDER BY clause of
the ranked deduplication queries is the comma-joined list of the ordering
column and the optional tiebreaker, followed by a single ASC or DESC token,
exactly as in the source; in SQL that direction modifier binds only to the
last sort key. -/
def generate_grain_sql (grain : GrainDefinition) (includeSplit : Bool) : String :=
  let schema := grain.schema
  let table := grain.entity_table
  let entityCol := grain.entity_id_column
  let obsCol := grain.observation_date_column
  let orderCol := grain.dedup_order_by
  let tiebreaker := grain.dedup_tiebreaker
  let isFixedObs := grain.observation_date_type == "fixed"
  let orderParts :=
    [qid orderCol] ++ (if optTruthy tiebreaker then [qid (optVal tiebreaker)] else [])
  let orderClause := String.intercalate ", " orderParts
  let obsDateExpr :=
    if isFixedObs then "'" ++ pyOpt grain.observation_date_value ++ "'::DATE"
    else qid obsCol ++ "::DATE"
  let nullFilter :=
    if isFixedObs then qid entityCol ++ " IS NOT NULL"
    else qid entityCol ++ " IS NOT NULL AND " ++ qid obsCol ++ " IS NOT NULL"
  let splitExpr := splitExprFor includeSplit grain.train_end_date grain.valid_end_date
  if grain.snapshot_strategy == "monthly" || grain.snapshot_strategy == "weekly" ||
      grain.snapshot_strategy == "daily" then
    generate_snapshot_sql grain grain.snapshot_strategy grain.start_date
      grain.end_date splitExpr includeSplit
  else if grain.deduplication_rule == "keep_all" then
    String.mk (pyStrip
      ("\nSELECT \n    " ++ qid entityCol ++ " AS entity_id,\n    " ++ obsDateExpr ++
       " AS observation_date" ++ (if includeSplit then splitExpr else "") ++
       "\nFROM " ++ qid schema ++ "." ++ qid table ++ "\nWHERE " ++ nullFilter ++
       "\n").data)
  else if grain.deduplication_rule == "keep_latest" then
    String.mk (pyStrip
      ("\nWITH ranked AS (\n    SELECT \n        " ++ qid entityCol ++
       " AS entity_id,\n        " ++ obsDateExpr ++
       " AS observation_date,\n        ROW_NUMBER() OVER (\n            PARTITION BY " ++
       qid entityCol ++ " \n            ORDER BY " ++ orderClause ++
       " DESC\n        ) AS rn\n    FROM " ++ qid schema ++ "." ++ qid table ++
       "\n    WHERE " ++ nullFilter ++ "\n)\nSELECT entity_id, observation_date" ++
       (if includeSplit then splitExpr else "") ++
       "\nFROM ranked\nWHERE rn = 1\n").data)
  else if grain.deduplication_rule == "keep_first" then
    String.mk (pyStrip
      ("\nWITH ranked AS (\n    SELECT \n        " ++ qid entityCol ++
       " AS entity_id,\n        " ++ obsDateExpr ++
       " AS observation_date,\n        ROW_NUMBER() OVER (\n            PARTITION BY " ++
       qid entityCol ++ " \n            ORDER BY " ++ orderClause ++
       " ASC\n        ) AS rn\n    FROM " ++ qid schema ++ "." ++ qid table ++
       "\n    WHERE " ++ nullFilter ++ "\n)\nSELECT entity_id, observation_date" ++
       (if includeSplit then splitExpr else "") ++
       "\nFROM ranked\nWHERE rn = 1\n").data)
  else
    String.mk (pyStrip
      ("\nSELECT \n    " ++ qid entityCol ++ " AS entity_id,\n    " ++ obsDateExpr ++
       " AS observation_date" ++ (if includeSplit then splitExpr else "") ++
       "\nFROM " ++ qid schema ++ "." ++ qid table ++ "\nWHERE " ++ nullFilter ++
       "\n").data)

/-! Relational semantics of the ranked deduplication query -/

/-- A source table row projected to the deduplication ordering column value
o and the tiebreaker column value t, for a single entity partition. -/
structure SrcRow where
  o : Int
  t : Int
deriving DecidableEq, Repr

/-- Strict sorts-before relation of the clause emitted for keep_latest when
a tiebreaker is configured.  The emitted text places a single DESC after
the comma-joined key list, and per SQL an ASC or DESC modifier attaches to
the sort key it follows while earlier keys default to ASC, so rows order by
the ordering column ascending and then the tiebreaker descending. -/
def keepLatestTbBefore (a b : SrcRow) : Bool :=
  a.o < b.o || (a.o == b.o && b.t < a.t)

/-- The row the ranked query ranks first in a partition: a fold selecting
the extremal row under the sorts-before relation.  For partitions whose
rows are totally separated by the relation this is the unique rn = 1 row of
the window function. -/
def rank1 (first : SrcRow) (rest : List SrcRow) : SrcRow :=
  rest.foldl (fun best r => if keepLatestTbBefore r best then r else best) first

/-! Target definition (target_service.py) -/

/-- The TargetDefinition value object after construction. -/
structure TargetDefinition where
  label_table : String
  label_join_column : String
  label_event_column : String
  label_event_time_column : String
  positive_values : List String
  window_type : String
  window_months : Int
  window_end_column : Option String
  maturity_months : Int
  extraction_date : Option String
  target_name : String
  schema : String
deriving Repr

/-- Embedding of the TargetDefinition constructor: the checks in source
order, each raising ValueError as an error value.  Identifier validation
runs first (schema, table, the three label columns, then the window end
column when it is truthy); then positive_values non-emptiness, window
configuration, maturity sign, and the extraction date digit pattern. -/
def mkTargetDefinition (label_table label_join_column label_event_column
    label_event_time_column : String) (positive_values : List String)
    (window_type : String) (window_months : Int)
    (window_end_column : Option String) (maturity_months : Int)
    (extraction_date : Option String) (target_name : Option String)
    (schema : String) : Except String TargetDefinition :=
  match validate_identifier schema "schema" with
  | .error e => .error e
  | .ok _ =>
  match validate_identifier label_table "label_table" with
  | .error e => .error e
  | .ok _ =>
  match validate_identifier label_join_column "label_join_column" with
  | .error e => .error e
  | .ok _ =>
  match validate_identifier label_event_column "label_event_column" with
  | .error e => .error e
  | .ok _ =>
  match validate_identifier label_event_time_column "label_event_time_column" with
  | .error e => .error e
  | .ok _ =>
  match (if optTruthy window_end_column then
      validate_identifier (optVal window_end_column) "window_end_column"
    else .ok ()) with
  | .error e => .error e
  | .ok _ =>
  if positive_values.isEmpty then
    .error "positive_values cannot be empty"
  else if !(window_type == "fixed" || window_type == "variable") then
    .error ("window_type must be fixed or variable, got " ++ window_type)
  else if window_type == "fixed" && window_months ≤ 0 then
    .error ("window_months must be > 0 for fixed window, got " ++
      toString window_months)
  else if window_type == "variable" && !optTruthy window_end_column then
    .error "window_end_column required for variable window type"
  else if maturity_months < 0 then
    .error ("maturity_months cannot be negative, got " ++ toString maturity_months)
  else if optTruthy extraction_date && !pyMatchDate (optVal extraction_date).data then
    .error ("Invalid extraction_date format: " ++ optVal extraction_date)
  else
    .ok ⟨label_table, label_join_column, label_event_column,
      label_event_time_column, positive_values, window_type, window_months,
      window_end_column, maturity_months, extraction_date,
      (if optTruthy target_name then optVal target_name else "target"), schema⟩

/-- Model of the Python expression v.replace with a doubled single quote,
used to escape positive values. -/
def escapeSquotes (s : String) : String :=
  String.mk (s.data.flatMap (fun c => if c == '\'' then ['\'', '\''] else [c]))

/-- Python repr of a list of strings, as interpolated into the target SQL
header comment. -/
def pyReprStrList (l : List String) : String :=
  "[" ++ String.intercalate ", " (l.map (fun s => "'" ++ s ++ "'")) ++ "]"

/-- Embedding of TargetService.generate_target_sql.  Error means the
Python function raises ValueError; that happens exactly when the window
type is variable, before any SQL text is assembled. -/
def generate_target_sql (target : TargetDefinition) (grain : GrainDefinition)
    (grain_sql : Option String) (include_grain_cte : Bool) :
    Except String String :=
  let joinCol := target.label_join_column
  let eventCol := target.label_event_column
  let eventTimeCol := target.label_event_time_column
  let escapedValues := target.positive_values.map escapeSquotes
  let valuesCondition :=
    match escapedValues with
    | [v] => qid eventCol ++ " = '" ++ v ++ "'"
    | vs => qid eventCol ++ " IN ('" ++ String.intercalate "', '" vs ++ "')"
  let extractionExpr :=
    if optTruthy target.extraction_date then
      "'" ++ optVal target.extraction_date ++ "'::DATE"
    else "CURRENT_DATE"
  let totalMonths := target.window_months + target.maturity_months
  if target.window_type == "variable" then
    .error ("Variable window mode is not yet supported. " ++
      "Use window_type='fixed' with window_months instead.")
  else
    let labelEventsSql :=
      "label_events AS (\n    -- Events from label table\n    SELECT \n        " ++
      qid joinCol ++ " AS entity_id,\n        " ++ qid eventTimeCol ++
      "::DATE AS event_date,\n        " ++ valuesCondition ++
      " AS is_positive\n    FROM " ++ qid target.schema ++ "." ++
      qid target.label_table ++ "\n    WHERE " ++ qid eventTimeCol ++
      " IS NOT NULL\n)"
    let targetCalcSql :=
      "target_calc AS (\n    SELECT \n        g.entity_id,\n        g.observation_date,\n        -- Target = 1 if any positive event within window after observation\n        MAX(CASE \n            WHEN e.is_positive = TRUE\n             AND e.event_date > g.observation_date\n             AND e.event_date <= g.observation_date + INTERVAL '" ++
      toString target.window_months ++
      " months'\n            THEN 1 ELSE 0 \n        END) AS " ++
      target.target_name ++
      "\n    FROM grain g\n    LEFT JOIN label_events e ON g.entity_id = e.entity_id\n    -- Maturity filter: only include observations that have had time to mature\n    WHERE g.observation_date + INTERVAL '" ++
      toString totalMonths ++ " months' <= " ++ extractionExpr ++
      "\n    GROUP BY g.entity_id, g.observation_date\n)"
    if include_grain_cte then
      let grainSql :=
        match grain_sql with
        | some s => s
        | none => generate_grain_sql grain false
      .ok (String.mk (pyStrip
        ("\n-- Target SQL: " ++ target.target_name ++ "\n-- Time window: " ++
         toString target.window_months ++
         " months after observation_date\n-- Maturity: " ++
         toString target.maturity_months ++
         " months after window ends\n-- Positive values: " ++
         pyReprStrList target.positive_values ++ "\n\nWITH grain AS (\n    " ++
         grainSql ++ "\n),\n" ++ labelEventsSql ++ ",\n" ++ targetCalcSql ++
         "\nSELECT entity_id, observation_date, " ++ target.target_name ++
         "\nFROM target_calc\n").data))
    else
      .ok (String.mk (pyStrip
        ("\n-- Target CTEs (grain CTE provided by assembler)\n" ++
         labelEventsSql ++ ",\n" ++ targetCalcSql ++ "\n").data))

/-! Calendar dates and the semantics of the target query -/

/-- A calendar date. -/
structure Date where
  year : Nat
  month : Nat
  day : Nat
deriving DecidableEq, Repr

/-- Chronological comparison of dates, lexicographic on year, month, day. -/
def Date.le (a b : Date) : Bool :=
  a.year < b.year ||
  (a.year == b.year &&
    (a.month < b.month || (a.month == b.month && a.day ≤ b.day)))

/-- Strict chronological comparison. -/
def Date.lt (a b : Date) : Bool :=
  Date.le a b && !(a == b)

/-- Gregorian leap year rule. -/
def isLeapYear (y : Nat) : Bool :=
  (y % 4 == 0 && y % 100 != 0) || y % 400 == 0

/-- Number of days of a month. -/
def daysInMonth (y m : Nat) : Nat :=
  if m == 2 then (if isLeapYear y then 29 else 28)
  else if m == 4 || m == 6 || m == 9 || m == 11 then 30
  else 31

/-- Month addition with day clamping: the semantics of adding a
whole-month INTERVAL to a date in the target database dialect.  The day of
month is preserved and clamped to the length of the destination month. -/
def addMonths (d : Date) (n : Nat) : Date :=
  let t := d.month - 1 + n
  let y := d.year + t / 12
  let m := t % 12 + 1
  ⟨y, m, min d.day (daysInMonth y m)⟩

/-- A grain row as consumed by the target query. -/
structure GrainRow where
  entity : Int
  obs : Date
deriving DecidableEq, Repr

/-- A row of the label_events CTE: rows with a NULL event time are already
filtered out, is_positive records whether the event column value is one of
the configured positive values. -/
structure LabelEvent where
  entity : Int
  event_date : Date
  is_positive : Bool
deriving DecidableEq, Repr

/-- The maturity filter of the target_calc CTE: the observation date plus
the single interval of window plus maturity months is on or before the
extraction date.  The source computes total_months as the Python sum of
window_months and maturity_months and emits one INTERVAL of that many
months. -/
def matureRow (W M : Nat) (extraction : Date) (g : GrainRow) : Bool :=
  Date.le (addMonths g.obs (W + M)) extraction

/-- The aggregated target value of one grain row: 1 when some joined
positive event falls strictly after the observation date and at most
window months after it, else 0.  This is the MAX over the CASE expression
of the left join. -/
def targetValue (W : Nat) (events : List LabelEvent) (g : GrainRow) : Nat :=
  if events.any (fun e =>
      e.entity == g.entity && e.is_positive &&
      Date.lt g.obs e.event_date &&
      Date.le e.event_date (addMonths g.obs W)) then 1 else 0

/-- Relational semantics of the target_calc CTE emitted by
generate_target_sql for a fixed window of W months, maturity M months and
extraction date E: grain rows passing the maturity filter, grouped by
entity and observation date, each carrying its aggregated target value. -/
def target_calc (W M : Nat) (E : Date) (grain : List GrainRow)
    (events : List LabelEvent) : List (Int × Date × Nat) :=
  ((grain.filter (matureRow W M E)).map
    (fun g => (g.entity, g.obs, targetValue W events g))).dedup

/-! Target distribution analysis (TargetService.get_distribution) -/

/-- Exact half-even rounding to two decimal places over the rationals,
the behaviour of the Python round builtin on values it represents
exactly - which includes every percentage appearing in the checked
scenarios. -/
def round2 (q : ℚ) : ℚ :=
  let r := q * 100
  let n : Int := ⌊r⌋
  let frac := r - (n : ℚ)
  let i : Int :=
    if frac < 1 / 2 then n
    else if 1 / 2 < frac then n + 1
    else if n % 2 = 0 then n else n + 1
  (i : ℚ) / 100

/-- One warning entry of the distribution report. -/
structure DistWarning where
  severity : String
  code : String
deriving DecidableEq, Repr

/-- The distribution report assembled by get_distribution after the
grouped query returns.  Warning messages are not modelled, only their
severity and machine code; percentages are exact rationals where the
source uses binary floats, which agree on the checked scenarios. -/
structure DistResult where
  target_name : String
  total_samples : Int
  class_0_count : Int
  class_1_count : Int
  class_0_pct : ℚ
  class_1_pct : ℚ
  distribution : List (Int × Int × ℚ)
  warnings : List DistWarning
  is_usable : Bool
  status : String
deriving DecidableEq, Repr

/-- Embedding of the pure part of TargetService.get_distribution: the
computation applied to the rows of the grouped distribution query, each
row a target value (NULL treated as 0) with its count. -/
def get_distribution_from_rows (targetName : String)
    (rows : List (Option Int × Int)) : DistResult :=
  let total : Int := (rows.map (fun r => r.2)).sum
  let distribution : List (Int × Int × ℚ) := rows.map (fun r =>
    let tv : Int := r.1.getD 0
    let pct : ℚ := if total > 0 then round2 ((r.2 : ℚ) / (total : ℚ) * 100) else 0
    (tv, r.2, pct))
  let class0 : Int := rows.foldl
    (fun acc r => if r.1.getD 0 == 0 then r.2 else acc) 0
  let class1 : Int := rows.foldl
    (fun acc r => if r.1.getD 0 == 0 then acc
      else if r.1.getD 0 == 1 then r.2 else acc) 0
  let class1pct : ℚ := if total > 0 then (class1 : ℚ) / (total : ℚ) * 100 else 0
  let class0pct : ℚ := if total > 0 then (class0 : ℚ) / (total : ℚ) * 100 else 0
  let imbalanceWarnings : List DistWarning :=
    if class1pct = 100 ∨ class0pct = 100 then
      [⟨"critical", "ZERO_VARIANCE"⟩]
    else if class1pct > 95 ∨ class0pct > 95 then
      [⟨"high", "EXTREME_IMBALANCE"⟩]
    else if class1pct > 80 ∨ class0pct > 80 then
      [⟨"medium", "HIGH_IMBALANCE"⟩]
    else []
  let lowCountWarnings : List DistWarning :=
    if class1 < 100 ∧ class1 > 0 then [⟨"medium", "LOW_POSITIVE_COUNT"⟩] else []
  let noDataWarnings : List DistWarning :=
    if total = 0 then [⟨"critical", "NO_DATA"⟩] else []
  let isUsable : Bool :=
    if class1pct = 100 ∨ class0pct = 100 then false
    else if total = 0 then false
    else true
  ⟨targetName, total, class0, class1, round2 class0pct, round2 class1pct,
    distribution, imbalanceWarnings ++ lowCountWarnings ++ noDataWarnings,
    isUsable, "success"⟩

/-! Concrete values used by witnesses and counterexamples -/

/-- An engine whose contract probes always report a single lower-case
entity_id output column. -/
def constEngine : Engine :=
  ⟨fun _ => .ok (), fun _ => .ok ["entity_id"], fun _ => .ok none⟩

/-- A plain column-strategy grain over a customers table keeping all rows. -/
def gdEx : GrainDefinition :=
  ⟨"customer", "customers", "customer_id", "signup_date", "column", none,
   "keep_all", "signup_date", none, "public", "column", none, none, 30,
   none, none⟩

/-- A keep_latest grain with ordering column o and tiebreaker column t. -/
def gdKeepLatest : GrainDefinition :=
  ⟨"customer", "tbl", "e", "obs", "column", none, "keep_latest", "o",
   some "t", "public", "column", none, none, 30, none, none⟩

/-- A variable-window target definition, as the constructor accepts it. -/
def tdVar : TargetDefinition :=
  ⟨"labels", "jid", "ev", "evt", ["pos"], "variable", 12, some "wend", 0,
   none, "target", "public"⟩

/-- A fixed-window target definition with a twelve month window, two month
maturity and a fixed extraction date. -/
def tdFix : TargetDefinition :=
  ⟨"labels", "jid", "ev", "evt", ["pos"], "fixed", 12, none, 2,
   some "2024-01-31", "target", "public"⟩

/-! Claim theorems -/

/-- Claim C1 (code_bug evaluation): the identifier guard accepts the
four-character string a b c newline, although that string contains a
character outside the allowed class, because the Python dollar anchor also
matches immediately before one trailing newline.  The claim says every
string containing a character outside the class is rejected. -/
theorem c1_identifier_guard_accepts_trailing_newline :
    validate_identifier "abc\n" "column" = .ok () ∧
    "abc\n".data.any (fun c => !isIdentChar c) = true := by
  exact ⟨rfl, by decide⟩

/-- Claim C8: on a 995 versus 5 class split the distribution report gives
class_1_pct one half of one percent, raises the EXTREME_IMBALANCE warning
at high severity, and stays usable; on a 1000 versus 0 split the target is
unusable. -/
theorem c8_distribution_imbalance_scenarios :
    (get_distribution_from_rows "target" [(some 0, 995), (some 1, 5)]).class_1_pct
      = 1 / 2 ∧
    (get_distribution_from_rows "target" [(some 0, 995), (some 1, 5)]).warnings.any
      (fun w => w.code == "EXTREME_IMBALANCE" && w.severity == "high") = true ∧
    (get_distribution_from_rows "target" [(some 0, 995), (some 1, 5)]).is_usable
      = true ∧
    (get_distribution_from_rows "target" [(some 0, 1000)]).is_usable = false := by
  refine ⟨?_, ?_, ?_, ?_⟩ <;>
    · simp only [get_distribution_from_rows, round2, List.map, List.sum,
        List.foldl, Option.getD]
      norm_num

/-- Claim C5: validating the text SELECT * FROM t; DROP TABLE t; yields
exactly two issues, MULTI_STATEMENT first and FORBIDDEN_KEYWORD second,
both of error severity, and the result is invalid - for every engine,
since the keyword errors short-circuit before any database round trip. -/
theorem c5_multi_statement_drop_scenario (engine : Engine) :
    (validate_sql_explain engine "SELECT * FROM t; DROP TABLE t;" "").valid
      = false ∧
    (validate_sql_explain engine "SELECT * FROM t; DROP TABLE t;" "").issues.map
      (fun i => i.code) = ["MULTI_STATEMENT", "FORBIDDEN_KEYWORD"] ∧
    (validate_sql_explain engine "SELECT * FROM t; DROP TABLE t;" "").issues.all
      (fun i => i.severity == .error) = true :=
  ⟨rfl, rfl, rfl⟩

/-- Claim C4 (counterexample): the text SELECT 1;; contains two
semicolons, of which at least one is not a single trailing semicolon, yet
check_forbidden_keywords reports no issue at all, because the source
strips every trailing semicolon before looking for an embedded one.  The
claim as stated requires a MULTI_STATEMENT issue here. -/
theorem c4_double_trailing_semicolon_counterexample :
    check_forbidden_keywords "SELECT 1;;" "" = [] ∧
    "SELECT 1;;".data.count ';' = 2 :=
  ⟨rfl, by decide⟩

/-- The forbidden-keyword scan finds a match exactly when some keyword of
the list occurs at some position of the text as a whole word. -/
theorem forbiddenMatches_exists (l : List Char) :
    (forbiddenMatches l).isEmpty = false ↔
      ∃ i k, k ∈ FORBIDDEN_KEYWORDS ∧ keywordAt l i k.data = true := by
  rw [List.isEmpty_eq_false]
  constructor
  · intro hne
    obtain ⟨x, hx⟩ := List.exists_mem_of_ne_nil _ hne
    simp only [forbiddenMatches, List.mem_flatMap, List.mem_filter,
      List.mem_range] at hx
    obtain ⟨i, _, hk, hkw⟩ := hx
    exact ⟨i, x, hk, hkw⟩
  · rintro ⟨i, k, hk, hkw⟩
    intro hnil
    have hmem : k ∈ forbiddenMatches l := by
      simp only [forbiddenMatches, List.mem_flatMap, List.mem_filter,
        List.mem_range]
      refine ⟨i, ?_, hk, hkw⟩
      by_contra h
      push_neg at h
      have hd : l.drop i = [] := List.drop_eq_nil_of_le h
      simp only [keywordAt, hd, Bool.and_eq_true] at hkw
      obtain ⟨⟨hpre, _⟩, _⟩ := hkw
      simp only [FORBIDDEN_KEYWORDS, List.mem_cons, List.mem_singleton,
        List.not_mem_nil, or_false] at hk
      rcases hk with rfl | rfl | rfl | rfl | rfl | rfl | rfl | rfl | rfl |
        rfl | rfl <;> exact absurd hpre (by decide)
    rw [hnil] at hmem
    exact absurd hmem (List.not_mem_nil k)

/-- Claim C4 (amended): check_forbidden_keywords returns a MULTI_STATEMENT
error exactly when a semicolon survives stripping surrounding whitespace
and every trailing semicolon (not only a single trailing one, as the claim
stated); it returns a FORBIDDEN_KEYWORD error exactly when a forbidden
keyword occurs in the text as a whole word of any letter case; every issue
it returns has error severity, and a text with neither condition yields no
issues. -/
theorem c4_forbidden_and_multi_statement_characterization
    (sql location : String) :
    ((check_forbidden_keywords sql location).any
        (fun i => i.code == "MULTI_STATEMENT")
      = (rstripSemis (pyStrip sql.data)).contains ';') ∧
    (((check_forbidden_keywords sql location).any
        (fun i => i.code == "FORBIDDEN_KEYWORD") = true)
      ↔ ∃ i k, k ∈ FORBIDDEN_KEYWORDS ∧ keywordAt sql.data i k.data = true) ∧
    ((check_forbidden_keywords sql location).all
        (fun i => i.severity == .error) = true) ∧
    ((check_forbidden_keywords sql location).isEmpty
      = (!(rstripSemis (pyStrip sql.data)).contains ';'
          && (forbiddenMatches sql.data).isEmpty)) := by
  have hiff := forbiddenMatches_exists sql.data
  cases h1 : (rstripSemis (pyStrip sql.data)).contains ';' with
  | false =>
    cases h2 : (forbiddenMatches sql.data).isEmpty with
    | false =>
      simp only [check_forbidden_keywords, h1, h2]
      exact ⟨rfl, iff_of_true rfl (hiff.mp h2), rfl, rfl⟩
    | true =>
      simp only [check_forbidden_keywords, h1, h2]
      refine ⟨rfl, iff_of_false Bool.false_ne_true (fun he => ?_), rfl, rfl⟩
      rw [hiff.mpr he] at h2
      exact Bool.noConfusion h2
  | true =>
    cases h2 : (forbiddenMatches sql.data).isEmpty with
    | false =>
      simp only [check_forbidden_keywords, h1, h2]
      exact ⟨rfl, iff_of_true rfl (hiff.mp h2), rfl, rfl⟩
    | true =>
      simp only [check_forbidden_keywords, h1, h2]
      refine ⟨rfl, iff_of_false Bool.false_ne_true (fun he => ?_), rfl, rfl⟩
      rw [hiff.mpr he] at h2
      exact Bool.noConfusion h2

/-- Claim C3 (code_bug evaluation): for a keep_latest grain with ordering
column o and tiebreaker column t, the generated SQL carries the clause
ORDER BY o, t DESC in which the direction modifier binds only to the
tiebreaker, so the ordering column sorts ascending; in a partition with
rows of ordering values 1 and 2 the rank one row is the one with the
minimum ordering value, not the claimed maximum. -/
theorem c3_keep_latest_tiebreaker_sorts_ordering_column_ascending :
    subOf "ORDER BY \"o\", \"t\" DESC".data
      (generate_grain_sql gdKeepLatest false).data = true ∧
    rank1 ⟨1, 5⟩ [⟨2, 3⟩] = ⟨1, 5⟩ ∧
    (rank1 ⟨1, 5⟩ [⟨2, 3⟩]).o ≠ max 1 2 := by
  refine ⟨by decide, rfl, by decide⟩

/-- The payload of an Except value, with errors mapped to their message. -/
def exceptVal (e : Except String String) : String :=
  match e with
  | .ok s => s
  | .error s => s

/-- Claim C10: generate_target_sql raises for every variable-window target
definition, whatever the grain and parameters, and the constructor does
admit a variable-window definition once a window end column is provided,
so no target SQL is ever produced for such a definition. -/
theorem c10_variable_window_always_rejected :
    (∀ (t : TargetDefinition) (g : GrainDefinition) (gs : Option String)
        (inc : Bool), t.window_type = "variable" →
      generate_target_sql t g gs inc =
        .error ("Variable window mode is not yet supported. " ++
          "Use window_type='fixed' with window_months instead.")) ∧
    okB (mkTargetDefinition "labels" "jid" "ev" "evt" ["pos"] "variable" 12
      (some "wend") 0 none none "public") = true := by
  constructor
  · intro t g gs inc ht
    simp only [generate_target_sql, ht]
    rfl
  · rfl

/-- Witness for claim C10: the generator rejects the concrete
variable-window definition tdVar against the concrete grain gdEx. -/
theorem c10_variable_window_witness :
    generate_target_sql tdVar gdEx none true =
      .error ("Variable window mode is not yet supported. " ++
        "Use window_type='fixed' with window_months instead.") :=
  c10_variable_window_always_rejected.1 tdVar gdEx none true rfl

set_option maxHeartbeats 2000000 in
/-- Claim C2: under the semantics of the target_calc CTE generated for a
fixed window, a pair of entity and observation date appears in the target
output exactly when it appears in the grain and the observation date plus
the single interval of window plus maturity months is on or before the
extraction date.  The second conjunct anchors the embedding to the
generated text: for the concrete definition tdFix with twelve window
months, two maturity months and extraction date 2024-01-31, the emitted
SQL contains the maturity filter with the summed fourteen month interval
compared against the fixed date. -/
theorem c2_target_maturity_filter :
    (∀ (W M : Nat) (E : Date) (grain : List GrainRow)
        (events : List LabelEvent) (e : Int) (d : Date),
      (∃ tv, (e, d, tv) ∈ target_calc W M E grain events) ↔
        ((∃ g ∈ grain, g.entity = e ∧ g.obs = d) ∧
          Date.le (addMonths d (W + M)) E = true)) ∧
    subOf
      "WHERE g.observation_date + INTERVAL '14 months' <= '2024-01-31'::DATE".data
      (exceptVal (generate_target_sql tdFix gdEx none true)).data = true := by
  constructor
  · intro W M E grain events e d
    constructor
    · rintro ⟨tv, htv⟩
      simp only [target_calc, List.mem_dedup, List.mem_map,
        List.mem_filter] at htv
      obtain ⟨g, ⟨hg, hm⟩, heq⟩ := htv
      have he : g.entity = e := congrArg Prod.fst heq
      have hd : g.obs = d := congrArg (fun p => p.2.1) heq
      refine ⟨⟨g, hg, he, hd⟩, ?_⟩
      simpa only [matureRow, hd] using hm
    · rintro ⟨⟨g, hg, he, hd⟩, hle⟩
      refine ⟨targetValue W events g, ?_⟩
      simp only [target_calc, List.mem_dedup, List.mem_map, List.mem_filter]
      refine ⟨g, ⟨hg, ?_⟩, ?_⟩
      · simpa only [matureRow, hd] using hle
      · rw [he, hd]
  · decide

/-- Success of the identifier guard coincides with the ident_ok predicate,
whatever the context string. -/
theorem okB_validate_identifier (s c : String) :
    okB (validate_identifier s c) = ident_ok s := by
  simp only [validate_identifier, ident_ok]
  by_cases hA : s == ""
  · simp [hA, okB]
  · by_cases hB : s.length > 128
    · simp [hA, hB, okB, Nat.not_le.mpr hB]
    · by_cases hC : pyMatchIdent s.data
      · simp [hA, hB, hC, okB, Nat.not_lt.mp hB]
      · simp [hA, hB, hC, okB, Nat.not_lt.mp hB]

/-- Success of an identifier-validation step followed by a continuation. -/
theorem okB_step (v : Except String Unit)
    (rest : Except String TargetDefinition) :
    okB (match v with
      | .error e => (.error e : Except String TargetDefinition)
      | .ok _ => rest) = (okB v && okB rest) := by
  cases v <;> simp [okB]

/-- Success of a raising guard followed by a continuation. -/
theorem okB_guard (c : Prop) [inst : Decidable c] (m : String)
    (rest : Except String TargetDefinition) :
    okB (if c then .error m else rest) = (!decide c && okB rest) := by
  by_cases h : c <;> simp [h, okB]

/-- okB of a success value. -/
theorem okB_ok {α : Type} (a : α) : okB (Except.ok a : Except String α) = true :=
  rfl

/-- Boolean string equality as a decided proposition. -/
theorem string_beq_eq_decide (s t : String) : (s == t) = decide (s = t) := by
  by_cases h : s = t <;> simp [h]

/-- List emptiness as a decided proposition. -/
theorem list_isEmpty_eq_decide (l : List String) :
    l.isEmpty = decide (l = []) := by
  cases l <;> simp

/-- Claim C7 (amended): constructing a TargetDefinition succeeds exactly
when every identifier passes the guard (including the window end column
when one is given), positive_values is non-empty, the window type is fixed
or variable, a fixed window has window_months greater than zero, a
variable window has a window end column, maturity_months is non-negative,
and a given extraction_date matches the four-two-two digit pattern.  In
particular, window_months of zero or less is accepted when the window type
is variable, and an extraction date that matches the digit pattern without
being a valid calendar date is accepted; both are counterexamples to the
claim as stated. -/
theorem c7_target_definition_constructor_checks
    (lt ljc lec letc : String) (pv : List String) (wt : String) (wm : Int)
    (wec : Option String) (mm : Int) (ed : Option String)
    (tn : Option String) (sch : String) :
    okB (mkTargetDefinition lt ljc lec letc pv wt wm wec mm ed tn sch) =
      (ident_ok sch && ident_ok lt && ident_ok ljc && ident_ok lec &&
       ident_ok letc &&
       (if optTruthy wec then ident_ok (optVal wec) else true) &&
       !pv.isEmpty && (wt == "fixed" || wt == "variable") &&
       !(wt == "fixed" && decide (wm ≤ 0)) &&
       !(wt == "variable" && !optTruthy wec) && !decide (mm < 0) &&
       !(optTruthy ed && !pyMatchDate (optVal ed).data)) := by
  simp only [mkTargetDefinition, okB_step, okB_guard, okB_validate_identifier]
  by_cases hw : optTruthy wec <;>
    simp [hw, okB_ok, okB_validate_identifier, string_beq_eq_decide,
      list_isEmpty_eq_decide, Bool.not_not, Bool.and_assoc]

/-- Claim C7 (counterexample): a variable-window definition with
window_months equal to zero is accepted by the constructor, although the
claim requires a ValueError whenever window_months is not positive. -/
theorem c7_zero_window_months_accepted :
    okB (mkTargetDefinition "labels" "jid" "ev" "evt" ["x"] "variable" 0
      (some "wend") 0 none none "public") = true := by
  decide

/-- Map distributes over emptiness. -/
theorem isEmpty_map {α β : Type} (f : α → β) (l : List α) :
    (l.map f).isEmpty = l.isEmpty := by
  cases l <;> rfl

/-- Claim C6 (amended): both contract checks wrap the fragment as SELECT *
FROM (fragment) LIMIT 0 and test each required column against the output
columns, but the assembler's enforce_join_contract matches names
case-insensitively while the validation layer's validate_output_contract
requires an exact, case-sensitive match; validate_output_contract
additionally warns exactly when output column names are duplicated. -/
theorem c6_contract_checks_presence_tests :
    (∀ (engine : Engine) (sql name : String) (expected cols : List String),
      engine.limitZeroColumns (enforceWrap sql) = .ok cols →
        ((enforce_join_contract engine sql expected name).valid = true ↔
          ∀ c ∈ expected, lowerStr c ∈ cols.map lowerStr)) ∧
    (∀ (engine : Engine) (sql loc : String) (required cols : List String),
      engine.limitZeroColumns (contractWrap sql) = .ok cols →
        (((validate_output_contract engine sql required loc).issues.any
            (fun i => i.code == "MISSING_COLUMNS"))
            = !required.all (fun c => cols.contains c) ∧
         ((validate_output_contract engine sql required loc).issues.any
            (fun i => i.code == "DUPLICATE_COLUMNS"))
            = (cols.length != cols.eraseDups.length))) := by
  constructor
  · intro engine sql name expected cols h
    simp only [enforce_join_contract, h]
    rw [isEmpty_map]
    simp [List.isEmpty_iff, List.filter_eq_nil_iff]
  · intro engine sql loc required cols h
    have hiso : (required.filter (fun c => !cols.contains c)).isEmpty
        = required.all (fun c => cols.contains c) := by
      induction required with
      | nil => rfl
      | cons c cs ih =>
        rw [List.filter_cons, List.all_cons]
        cases hc : cols.contains c
        · rfl
        · exact ih
    simp only [validate_output_contract, h]
    rw [← hiso]
    cases hm : (required.filter (fun c => !cols.contains c)).isEmpty <;>
      cases hd : (cols.length != cols.eraseDups.length) <;>
        exact ⟨rfl, rfl⟩

/-- Claim C6 (counterexample): with an engine reporting the single output
column entity_id, the assembler's contract check accepts the required
column Entity_ID while the validation layer reports it missing of error
severity - so the two layers do not apply the same column-presence test,
and the validation layer's test is not case-insensitive. -/
theorem c6_case_sensitivity_counterexample :
    (enforce_join_contract constEngine "SELECT 1" ["Entity_ID"] "Grain SQL").valid
      = true ∧
    (validate_output_contract constEngine "SELECT 1" ["Entity_ID"]
        "dataset_sql").issues.map (fun i => i.code) = ["MISSING_COLUMNS"] ∧
    (validate_output_contract constEngine "SELECT 1" ["Entity_ID"]
        "dataset_sql").valid = false :=
  ⟨rfl, rfl, rfl⟩

/-- Witness for claim C6: both parts applied to the constant engine, a
concrete fragment and a concrete required column, with the oracle
hypotheses discharged by computation. -/
theorem c6_contract_checks_presence_tests_witness :
    ((enforce_join_contract constEngine "q" ["Entity_ID"] "Grain SQL").valid
        = true ↔
      ∀ c ∈ (["Entity_ID"] : List String),
        lowerStr c ∈ (["entity_id"] : List String).map lowerStr) ∧
    (((validate_output_contract constEngine "q" ["Entity_ID"] "loc").issues.any
        (fun i => i.code == "MISSING_COLUMNS"))
        = !(["Entity_ID"] : List String).all
            (fun c => (["entity_id"] : List String).contains c) ∧
     ((validate_output_contract constEngine "q" ["Entity_ID"] "loc").issues.any
        (fun i => i.code == "DUPLICATE_COLUMNS"))
        = ((["entity_id"] : List String).length !=
            (["entity_id"] : List String).eraseDups.length)) :=
  ⟨c6_contract_checks_presence_tests.1 constEngine "q" "Grain SQL"
      ["Entity_ID"] ["entity_id"] rfl,
   c6_contract_checks_presence_tests.2 constEngine "q" "loc"
      ["Entity_ID"] ["entity_id"] rfl⟩

/-! Validity invariant of validation results -/

/-- Whether an issue list contains no error-severity issue. -/
def noErrorsB (l : List ValidationIssue) : Bool :=
  l.all (fun i => !(i.severity == Severity.error))

/-- The invariant of the validation layer: a result is valid exactly when
its issue list contains zero error-severity issues. -/
def resultInv (r : ValidationResult) : Prop :=
  r.valid = noErrorsB r.issues

/-- Negation distributes from elements to existence in a Boolean all. -/
theorem all_not_eq_not_any {α : Type} (l : List α) (p : α → Bool) :
    l.all (fun a => !p a) = !(l.any p) := by
  induction l with
  | nil => rfl
  | cons a as ih => simp [List.all_cons, List.any_cons, ih, Bool.not_or]

/-- noErrorsB splits over concatenation. -/
theorem noErrorsB_append (a b : List ValidationIssue) :
    noErrorsB (a ++ b) = (noErrorsB a && noErrorsB b) := by
  simp [noErrorsB, List.all_append]

/-- Adding an error issue re-establishes the invariant unconditionally:
it clears valid and guarantees an error is present. -/
theorem resultInv_add_error (r : ValidationResult) (c m l s : String) :
    resultInv (r.add_error c m l s) := by
  show false = noErrorsB (r.issues ++ [⟨Severity.error, c, m, l, s⟩])
  rw [noErrorsB_append,
    show noErrorsB [⟨Severity.error, c, m, l, s⟩] = false from rfl,
    Bool.and_false]

/-- Adding a warning preserves the invariant. -/
theorem resultInv_add_warning {r : ValidationResult} (h : resultInv r)
    (c m l s : String) : resultInv (r.add_warning c m l s) := by
  show r.valid = noErrorsB (r.issues ++ [⟨Severity.warning, c, m, l, s⟩])
  rw [noErrorsB_append,
    show noErrorsB [⟨Severity.warning, c, m, l, s⟩] = true from rfl,
    Bool.and_true]
  exact h

/-- Adding an info issue preserves the invariant. -/
theorem resultInv_add_info {r : ValidationResult} (h : resultInv r)
    (c m l s : String) : resultInv (r.add_info c m l s) := by
  show r.valid = noErrorsB (r.issues ++ [⟨Severity.info, c, m, l, s⟩])
  rw [noErrorsB_append,
    show noErrorsB [⟨Severity.info, c, m, l, s⟩] = true from rfl,
    Bool.and_true]
  exact h

/-- Appending a warning leaves error-freeness unchanged. -/
theorem noErrorsB_add_warning (r : ValidationResult) (c m l s : String) :
    noErrorsB (r.add_warning c m l s).issues = noErrorsB r.issues := by
  show noErrorsB (r.issues ++ [⟨Severity.warning, c, m, l, s⟩])
    = noErrorsB r.issues
  rw [noErrorsB_append,
    show noErrorsB [⟨Severity.warning, c, m, l, s⟩] = true from rfl,
    Bool.and_true]

/-- Conjoining validity flags while concatenating issue lists preserves
the invariant. -/
theorem resultInv_combine {a b : ValidationResult} (ha : resultInv a)
    (hb : resultInv b) :
    resultInv (⟨a.valid && b.valid, a.issues ++ b.issues⟩ : ValidationResult) := by
  unfold resultInv at *
  simp [noErrorsB_append, ha, hb]

/-- Appending error-free issues while keeping the flag preserves the
invariant. -/
theorem resultInv_append_noerr {r : ValidationResult}
    {l : List ValidationIssue} (hr : resultInv r) (hl : noErrorsB l = true) :
    resultInv (⟨r.valid, r.issues ++ l⟩ : ValidationResult) := by
  unfold resultInv at *
  rw [noErrorsB_append, hl, Bool.and_true]
  exact hr

/-- The invariant holds for every result of validate_sql_explain. -/
theorem resultInv_validate_sql_explain (engine : Engine) (sql loc : String) :
    resultInv (validate_sql_explain engine sql loc) := by
  have hr1 : resultInv (⟨!(check_forbidden_keywords sql loc).any
      (fun i => i.severity == Severity.error),
      check_forbidden_keywords sql loc⟩ : ValidationResult) :=
    (all_not_eq_not_any _ _).symm
  simp only [validate_sql_explain]
  split
  · exact hr1
  · split
    · exact hr1
    · split
      · exact resultInv_add_error _ _ _ _ _
      · exact resultInv_add_error _ _ _ _ _

/-- The invariant holds for every result of validate_output_contract. -/
theorem resultInv_validate_output_contract (engine : Engine) (sql : String)
    (req : List String) (loc : String) :
    resultInv (validate_output_contract engine sql req loc) := by
  simp only [validate_output_contract]
  split
  · exact resultInv_add_error _ _ _ _ _
  · split
    · apply resultInv_add_warning
      split
      · rfl
      · exact resultInv_add_error _ _ _ _ _
    · split
      · rfl
      · exact resultInv_add_error _ _ _ _ _

/-- The invariant holds for every result of validate_feature_columns. -/
theorem resultInv_validate_feature_columns (engine : Engine) (sql : String)
    (decl : List String) (loc : String) :
    resultInv (validate_feature_columns engine sql decl loc) := by
  simp only [validate_feature_columns]
  split
  · exact resultInv_add_error _ _ _ _ _
  · apply resultInv_add_info
    split
    · rfl
    · exact resultInv_add_error _ _ _ _ _

/-- validate_mean_imputation_types always returns a valid result whose
issues are all warnings. -/
theorem mean_types_props (engine : Engine) (sql : String)
    (cols : List String) (loc : String) :
    (validate_mean_imputation_types engine sql cols loc).valid = true ∧
    noErrorsB (validate_mean_imputation_types engine sql cols loc).issues
      = true := by
  have hloop : ∀ (row : List String) (l : String)
      (pairs : List (Nat × String)) (r : ValidationResult),
      r.valid = true → noErrorsB r.issues = true →
      (meanTypeLoop row l pairs r).valid = true ∧
      noErrorsB (meanTypeLoop row l pairs r).issues = true := by
    intro row l pairs
    induction pairs with
    | nil => intro r h1 h2; exact ⟨h1, h2⟩
    | cons p rest ih =>
      obtain ⟨i, col⟩ := p
      intro r h1 h2
      simp only [meanTypeLoop]
      apply ih
      · split
        · exact h1
        · exact h1
      · split
        · rw [noErrorsB_add_warning]
          exact h2
        · exact h2
  simp only [validate_mean_imputation_types]
  split
  · exact ⟨rfl, rfl⟩
  · split
    · exact ⟨rfl, rfl⟩
    · split
      · exact ⟨rfl, rfl⟩
      · exact ⟨rfl, rfl⟩
      · exact hloop _ _ _ _ rfl rfl

/-- The invariant holds for every result of
validate_mean_imputation_types. -/
theorem resultInv_validate_mean_imputation_types (engine : Engine)
    (sql : String) (cols : List String) (loc : String) :
    resultInv (validate_mean_imputation_types engine sql cols loc) := by
  have h := mean_types_props engine sql cols loc
  unfold resultInv
  rw [h.1, h.2]

/-- The feature loop of validate_dataset_sql preserves the invariant. -/
theorem resultInv_featureLoop (engine : Engine) :
    ∀ (fs : List FeatureSqlDict) (i : Nat) (acc : ValidationResult),
      resultInv acc → resultInv (featureLoop engine i fs acc) := by
  intro fs
  induction fs with
  | nil => intro i acc h; simpa only [featureLoop] using h
  | cons f rest ih =>
    intro i acc h
    simp only [featureLoop]
    apply ih
    have hacc1 : resultInv (⟨acc.valid &&
        !(check_forbidden_keywords f.sql ("feature_" ++ toString i)).any
          (fun x => x.severity == Severity.error),
        acc.issues ++
          check_forbidden_keywords f.sql ("feature_" ++ toString i)⟩ :
        ValidationResult) := by
      unfold resultInv at h ⊢
      show (acc.valid &&
          !(check_forbidden_keywords f.sql ("feature_" ++ toString i)).any
            (fun x => x.severity == Severity.error))
        = noErrorsB (acc.issues ++
            check_forbidden_keywords f.sql ("feature_" ++ toString i))
      rw [noErrorsB_append, h, ← all_not_eq_not_any]
      rfl
    split
    · exact resultInv_combine hacc1
        (resultInv_validate_feature_columns _ _ _ _)
    · exact hacc1

/-- The invariant holds for every result of validate_dataset_sql. -/
theorem resultInv_validate_dataset_sql (engine : Engine) (ds : String)
    (fs : Option (List FeatureSqlDict))
    (ps : Option (List (String × String))) :
    resultInv (validate_dataset_sql engine ds fs ps) := by
  have hmain := resultInv_validate_sql_explain engine ds "dataset_sql"
  have hcontract := resultInv_validate_output_contract engine ds
    ["entity_id", "observation_date"] "dataset_sql"
  simp only [validate_dataset_sql]
  split
  · split
    · split
      · exact resultInv_combine hmain hcontract
      · exact hmain
    · apply resultInv_featureLoop
      split
      · exact resultInv_combine hmain hcontract
      · exact hmain
  · split
    · apply resultInv_append_noerr
      · split
        · split
          · exact resultInv_combine hmain hcontract
          · exact hmain
        · apply resultInv_featureLoop
          split
          · exact resultInv_combine hmain hcontract
          · exact hmain
      · exact (mean_types_props _ _ _ _).2
    · split
      · split
        · exact resultInv_combine hmain hcontract
        · exact hmain
      · apply resultInv_featureLoop
        split
        · exact resultInv_combine hmain hcontract
        · exact hmain

/-- Claim C9: every ValidationResult returned by the five public
validation operations satisfies the invariant that valid is true exactly
when the issue list holds zero error-severity issues. -/
theorem c9_validation_results_satisfy_invariant :
    (∀ (engine : Engine) (sql loc : String),
      resultInv (validate_sql_explain engine sql loc)) ∧
    (∀ (engine : Engine) (sql : String) (req : List String) (loc : String),
      resultInv (validate_output_contract engine sql req loc)) ∧
    (∀ (engine : Engine) (sql : String) (decl : List String) (loc : String),
      resultInv (validate_feature_columns engine sql decl loc)) ∧
    (∀ (engine : Engine) (sql : String) (cols : List String) (loc : String),
      resultInv (validate_mean_imputation_types engine sql cols loc)) ∧
    (∀ (engine : Engine) (ds : String) (fs : Option (List FeatureSqlDict))
        (ps : Option (List (String × String))),
      resultInv (validate_dataset_sql engine ds fs ps)) :=
  ⟨resultInv_validate_sql_explain, resultInv_validate_output_contract,
   resultInv_validate_feature_columns,
   resultInv_validate_mean_imputation_types,
   resultInv_validate_dataset_sql⟩

end Witch
